import Mathlib

/-!
Shallow embedding of the conversation state machine of the cdp-support-bot
frontend (files `ChatInterface`, `Header`, `CDPContext`).

The embedded code is the client-side chat logic:
  * the `Message` record and its delivery status,
  * `handleSend` (guard, optimistic append, request payload, response /
    error continuations, the 500 ms delayed bot append),
  * the localStorage mirroring effect (`chatHistory`, `selectedPlatform`),
  * the startup restore of persisted history,
  * the clear-chat broadcast handler.

JavaScript builtins are modelled as follows:
  * `Date` values are epoch milliseconds (`Nat`); `new Date(msg.timestamp)`
    applied to such a value is the identity.
  * `JSON.parse` / `JSON.stringify` round-trip faithfully on well-formed
    serialized message arrays, so a persisted `chatHistory` value is
    classified by the inductive `Stored`: either the serialization of a
    message list, or `malformed` (a truthy string on which the restore code
    raises: `JSON.parse` throws a SyntaxError on invalid JSON, and `.map`
    throws a TypeError on a parsed value that is not an array; neither is
    caught anywhere in the component). An absent key (`getItem` returning
    `null`) is `Option.none` around `Stored`.
  * JavaScript truthiness on optional strings (`a || b`): `null`/`undefined`
    and the empty string are falsy; `jsOr` below.
  * `String.prototype.trim` is modelled by `jsTrim` below, stripping the
    WhiteSpace and LineTerminator characters from both ends.
  * Nondeterministic inputs of the code (random message ids, clock reads,
    the network outcome) are explicit parameters.
-/

namespace CdpBot

/-- Delivery status of a message: the string union `sent | delivered | error`
of the `Message` interface in `ChatInterface`. -/
inductive MsgStatus
| sent
| delivered
| error
deriving DecidableEq, Repr

/-- The `Message` interface of `ChatInterface`: `content`, `isUser`,
`timestamp` (a `Date`, modelled as epoch milliseconds), optional `status`,
and `id`. -/
structure Message where
  content : String
  isUser : Bool
  timestamp : Nat
  status : Option MsgStatus
  id : String
deriving DecidableEq, Repr

/-- Classification of a value stored under the `chatHistory` key: either the
serialization of a message list (on which `JSON.parse` followed by the
timestamp-reviving `.map` succeeds and returns that list), or a truthy string
on which that code throws (invalid JSON, or valid JSON that is not an
array). -/
inductive Stored
| messages (l : List Message)
| malformed
deriving DecidableEq, Repr

/-- In-memory and persisted state touched by the embedded handlers: the
`messages` list, the `input` field, the `isLoading` flag and the context's
`selectedPlatform` (in memory), plus the two localStorage keys the claims
concern (`chatHistory`, `selectedPlatform`); `Option.none` models an absent
key. -/
structure ChatState where
  messages : List Message
  input : String
  isLoading : Bool
  selectedPlatform : Option String
  chatHistoryStore : Option Stored
  selectedPlatformStore : Option String
deriving DecidableEq, Repr

/-- Request body of the `POST /api/chat` call built in `handleSend`:
`\x7b message: input, platform: selectedPlatform || 'Other' \x7d`. -/
structure Payload where
  message : String
  platform : String
deriving DecidableEq, Repr

/-- JavaScript `a || b` for an optional string `a`: `null`/`undefined` and
the empty string are falsy. -/
def jsOr : Option String → String → String
| none, d => d
| some s, d => if s = "" then d else s

/-- WhiteSpace and LineTerminator characters stripped by
`String.prototype.trim`: tab, LF, VT, FF, CR, space, NBSP, BOM, LS, PS and
the Unicode space separators. -/
def jsWhitespace (c : Char) : Bool :=
  c = ' ' ∨ c = '\t' ∨ c = '\n' ∨ c = '\r' ∨
  c = (Char.ofNat 11) ∨ c = (Char.ofNat 12) ∨ c = (Char.ofNat 160) ∨
  c = (Char.ofNat 65279) ∨ c = (Char.ofNat 8232) ∨ c = (Char.ofNat 8233) ∨
  c = (Char.ofNat 5760) ∨ (8192 ≤ c.toNat ∧ c.toNat ≤ 8202) ∨
  c = (Char.ofNat 8239) ∨ c = (Char.ofNat 8287) ∨ c = (Char.ofNat 12288)

/-- Model of `String.prototype.trim`: drops `jsWhitespace` characters from
both ends of the string. -/
def jsTrim (s : String) : String :=
  ⟨((s.data.dropWhile jsWhitespace).reverse.dropWhile jsWhitespace).reverse⟩

/-- The persistence effect of `ChatInterface`: on every change of `messages`
it runs `localStorage.setItem` of `chatHistory` to `JSON.stringify(messages)`;
in the model the stored value is the classification
`Stored.messages s.messages`. -/
def persistMessages (s : ChatState) : ChatState :=
  { s with chatHistoryStore := some (Stored.messages s.messages) }

/-- Synchronous phase of `handleSend`, up to issuing the request: the
`if (!input.trim()) return` guard (a trimmed result is falsy exactly when it
is the empty string), the construction of the user message with status
`sent`, its append, `setInput`, `setIsLoading(true)`, the payload using the
captured (uncleared) `input` and `selectedPlatform || 'Other'`, followed by
the persistence effect. The generated random `messageId` and the clock read
`new Date()` are the parameters `messageId` and `now`. Returns the new state
and the request payload actually issued (`none` when the guard returned). -/
def handleSendStart (s : ChatState) (messageId : String) (now : Nat) :
    ChatState × Option Payload :=
  if jsTrim s.input = "" then (s, none)
  else
    let userMessage : Message :=
      { content := s.input
        isUser := true
        timestamp := now
        status := some MsgStatus.sent
        id := messageId }
    (persistMessages
      { s with
        messages := s.messages ++ [userMessage]
        input := ""
        isLoading := true },
     some { message := s.input, platform := jsOr s.selectedPlatform "Other" })

/-- The `data` of a 2xx axios response, keeping only the field the code
reads: `data.response` (`none` when the field is absent; `some ""` when
present but empty, which is falsy and hence rejected). -/
structure RespData where
  response : Option String
deriving DecidableEq, Repr

/-- What the catch block reads off the caught value:
`error?.message` and `error?.response?.data?.detail`. -/
structure ErrInfo where
  message : Option String
  detail : Option String
deriving DecidableEq, Repr

/-- Outcome of `axios.post`: a 2xx response carrying `data` (possibly a
falsy body, modelled `none`), or a thrown error (network failure or non-2xx
status) carrying the fields the catch block reads. -/
inductive AxiosOutcome
| ok (data : Option RespData)
| err (e : ErrInfo)
deriving DecidableEq, Repr

/-- The payload validation of `handleSend`:
`if (!response.data || !response.data.response) throw new Error('Invalid response format from server')`.
Returns the response text on success, and on failure the `ErrInfo` of the
thrown `Error` (its `message`; a plain `Error` has no `response`, so
`detail` is absent). -/
def validateResponse : Option RespData → Except ErrInfo String
| none => Except.error { message := some "Invalid response format from server", detail := none }
| some d =>
    match d.response with
    | none => Except.error { message := some "Invalid response format from server", detail := none }
    | some r =>
        if r = "" then
          Except.error { message := some "Invalid response format from server", detail := none }
        else Except.ok r

/-- The `ErrInfo` with which `handleSend` reaches its catch block, if any:
a thrown axios error directly, and an invalid 2xx payload through the
`throw new Error(...)` above; `none` for a valid success. -/
def failureInfo : AxiosOutcome → Option ErrInfo
| AxiosOutcome.err e => some e
| AxiosOutcome.ok data =>
    match validateResponse data with
    | Except.error e => some e
    | Except.ok _ => none

/-- The toast raised by the catch block of `handleSend`. -/
structure ToastInfo where
  title : String
  description : String
  status : String
  duration : Nat
  isClosable : Bool
deriving DecidableEq, Repr

/-- Error description of the catch block:
`error?.response?.data?.detail || error?.message || 'Failed to get response'`. -/
def errDescription (e : ErrInfo) : String :=
  jsOr e.detail (jsOr e.message "Failed to get response")

/-- The status-rewriting `setMessages` updater used by both continuations of
`handleSend`: `prev.map(msg => msg.id === messageId ? \x7b ...msg, status \x7d : msg)`
with status `delivered` in the success branch and `error` in the catch
block. -/
def updateStatus (l : List Message) (messageId : String) (st : MsgStatus) :
    List Message :=
  l.map fun msg => if msg.id = messageId then { msg with status := some st } else msg

/-- The bot message built in the success branch: content from
`response.data.response`, `isUser: false`, a fresh `Date` (`now`), status
`'delivered'`, and a fresh random id. -/
def mkBotMessage (respText : String) (botId : String) (now : Nat) : Message :=
  { content := respText
    isUser := false
    timestamp := now
    status := some MsgStatus.delivered
    id := botId }

/-- Result of the response-handling phase: the state after the synchronous
updates (status rewrite, persistence effect, `finally` clearing the loading
flag), the bot message scheduled by `setTimeout(..., 500)` if any, and the
error toast if one was raised. -/
structure RespEffects where
  state : ChatState
  delayed : Option Message
  toast : Option ToastInfo
deriving DecidableEq, Repr

/-- Response-handling phase of `handleSend` for the request tagged
`messageId`: on a valid success, builds the bot message, rewrites the
originating message's status to `delivered` (with the persistence effect)
and schedules the bot append after 500 ms; on any failure (thrown axios
error, or the invalid-payload `throw`), rewrites the status to `error`
(with the persistence effect) and raises the error toast; the `finally`
block clears the loading flag in every branch. `botId` and `now` stand for
the random id and clock read of the success branch. -/
def handleSendResponse (s : ChatState) (messageId : String)
    (outcome : AxiosOutcome) (botId : String) (now : Nat) : RespEffects :=
  match outcome with
  | AxiosOutcome.ok data =>
      match validateResponse data with
      | Except.ok respText =>
          { state :=
              { persistMessages
                  { s with messages := updateStatus s.messages messageId MsgStatus.delivered } with
                isLoading := false }
            delayed := some (mkBotMessage respText botId now)
            toast := none }
      | Except.error e =>
          { state :=
              { persistMessages
                  { s with messages := updateStatus s.messages messageId MsgStatus.error } with
                isLoading := false }
            delayed := none
            toast := some
              { title := "Error"
                description := errDescription e
                status := "error"
                duration := 5000
                isClosable := true } }
  | AxiosOutcome.err e =>
      { state :=
          { persistMessages
              { s with messages := updateStatus s.messages messageId MsgStatus.error } with
            isLoading := false }
        delayed := none
        toast := some
          { title := "Error"
            description := errDescription e
            status := "error"
            duration := 5000
            isClosable := true } }

/-- Firing of the `setTimeout` callback scheduled by the success branch:
`setMessages(prev => [...prev, botMessage])`, followed by the persistence
effect; the identity when nothing was scheduled. -/
def fireDelayed (r : RespEffects) : ChatState :=
  match r.delayed with
  | some m => persistMessages { r.state with messages := r.state.messages ++ [m] }
  | none => r.state

/-- Startup read of persisted history in `ChatInterface`
(the `useState` initializer): an absent (or falsy) `chatHistory` yields `[]`;
a well-formed value is `JSON.parse`d and mapped through the timestamp revival
`\x7b ...msg, timestamp: new Date(msg.timestamp) \x7d` (the identity on the
model's epoch-millisecond timestamps); a malformed value makes `JSON.parse`
(or the `.map`) throw, and no handler catches it, so the initializer raises. -/
def restore : Option Stored → Except String (List Message)
| none => Except.ok []
| some (Stored.messages l) =>
    Except.ok (l.map fun msg => { msg with timestamp := msg.timestamp })
| some Stored.malformed => Except.error "uncaught exception (JSON.parse SyntaxError or map TypeError)"

/-- Effect of the clear-chat action on the chat state: `handleClearChat` in
`Header` dispatches the `clearChat` event (twice, via the context's
`clearChat` and directly); the listener in `ChatInterface` runs
`setMessages([])`, after which the persistence effect writes the
serialization of the empty list back under `chatHistory`. Nothing touches
the `selectedPlatform` key. -/
def handleClearChatEvent (s : ChatState) : ChatState :=
  persistMessages { s with messages := [] }

/-- The `onChange` handler of the platform `Select` in `Header`:
`const value = e.target.value || null; setSelectedPlatform(value)`, so the
context's platform is `none` exactly when the chosen option string is
empty. -/
def selectPlatformValue (v : String) : Option String :=
  if v = "" then none else some v

/-! Concrete states used by witnesses and counterexamples, and the
specification propositions of the claim theorems. -/

/-- A user message as `handleSend` creates it. -/
def exampleUserMsg : Message :=
  { content := "How do I set up Segment?"
    isUser := true
    timestamp := 100
    status := some MsgStatus.sent
    id := "m1" }

/-- State right after that message was sent: request in flight, history
persisted, platform chosen and persisted. -/
def exampleState : ChatState :=
  { messages := [exampleUserMsg]
    input := ""
    isLoading := true
    selectedPlatform := some "Segment"
    chatHistoryStore := some (Stored.messages [exampleUserMsg])
    selectedPlatformStore := some "Segment" }

/-- State right after a clear-chat while a request is still in flight. -/
def clearedState : ChatState :=
  { messages := []
    input := ""
    isLoading := true
    selectedPlatform := some "Segment"
    chatHistoryStore := some (Stored.messages [])
    selectedPlatformStore := some "Segment" }

/-- Fresh state whose input field holds a whitespace-only (yet non-empty)
string. -/
def wsState : ChatState :=
  { messages := []
    input := " "
    isLoading := false
    selectedPlatform := none
    chatHistoryStore := none
    selectedPlatformStore := none }

/-- Fresh state with a typed question and a chosen platform. -/
def typedState : ChatState :=
  { messages := []
    input := "How do I set up Segment?"
    isLoading := false
    selectedPlatform := some "Segment"
    chatHistoryStore := none
    selectedPlatformStore := some "Segment" }

/-- Fresh state whose input carries leading and trailing whitespace around
non-whitespace text. -/
def paddedState : ChatState :=
  { messages := []
    input := "  hello  "
    isLoading := false
    selectedPlatform := none
    chatHistoryStore := none
    selectedPlatformStore := none }

/-- What the success continuation of `handleSend` does for a response
carrying text `x`: statuses are rewritten to `delivered` exactly at the
originating id, all other fields and the order of existing messages are
untouched, a bot message with content `x`, `isUser := false` and status
`'delivered'` is scheduled, firing the delay appends it after every
existing message, and no toast is raised. -/
def SuccessFlowSpec (s : ChatState) (mid bid : String) (now : Nat) (x : String) : Prop :=
  (handleSendResponse s mid (AxiosOutcome.ok (some { response := some x })) bid now).state.messages.map Message.status
      = s.messages.map (fun m => if m.id = mid then some MsgStatus.delivered else m.status)
  ∧ (handleSendResponse s mid (AxiosOutcome.ok (some { response := some x })) bid now).state.messages.map Message.content
      = s.messages.map Message.content
  ∧ (handleSendResponse s mid (AxiosOutcome.ok (some { response := some x })) bid now).state.messages.map Message.id
      = s.messages.map Message.id
  ∧ (handleSendResponse s mid (AxiosOutcome.ok (some { response := some x })) bid now).state.messages.map Message.isUser
      = s.messages.map Message.isUser
  ∧ (handleSendResponse s mid (AxiosOutcome.ok (some { response := some x })) bid now).state.messages.map Message.timestamp
      = s.messages.map Message.timestamp
  ∧ (handleSendResponse s mid (AxiosOutcome.ok (some { response := some x })) bid now).delayed
      = some (mkBotMessage x bid now)
  ∧ (mkBotMessage x bid now).content = x
  ∧ (mkBotMessage x bid now).isUser = false
  ∧ (mkBotMessage x bid now).status = some MsgStatus.delivered
  ∧ (fireDelayed (handleSendResponse s mid (AxiosOutcome.ok (some { response := some x })) bid now)).messages
      = (handleSendResponse s mid (AxiosOutcome.ok (some { response := some x })) bid now).state.messages
        ++ [mkBotMessage x bid now]
  ∧ (handleSendResponse s mid (AxiosOutcome.ok (some { response := some x })) bid now).toast = none

/-- What the failure continuation of `handleSend` does when the catch block
is reached with error information `e`: no bot message is scheduled, number,
order and all non-status fields of the messages are untouched, statuses are
rewritten to `error` exactly at the originating id, the error toast carries
`errDescription e` (which is the server detail whenever that is present and
non-empty), and the loading flag is cleared. -/
def FailureFlowSpec (s : ChatState) (mid bid : String) (now : Nat)
    (out : AxiosOutcome) (e : ErrInfo) : Prop :=
  (handleSendResponse s mid out bid now).delayed = none
  ∧ (handleSendResponse s mid out bid now).state.messages.length = s.messages.length
  ∧ (handleSendResponse s mid out bid now).state.messages.map Message.content
      = s.messages.map Message.content
  ∧ (handleSendResponse s mid out bid now).state.messages.map Message.id
      = s.messages.map Message.id
  ∧ (handleSendResponse s mid out bid now).state.messages.map Message.isUser
      = s.messages.map Message.isUser
  ∧ (handleSendResponse s mid out bid now).state.messages.map Message.timestamp
      = s.messages.map Message.timestamp
  ∧ (handleSendResponse s mid out bid now).state.messages.map Message.status
      = s.messages.map (fun m => if m.id = mid then some MsgStatus.error else m.status)
  ∧ (handleSendResponse s mid out bid now).toast
      = some { title := "Error", description := errDescription e,
               status := "error", duration := 5000, isClosable := true }
  ∧ (∀ d, e.detail = some d → d ≠ "" → errDescription e = d)
  ∧ (handleSendResponse s mid out bid now).state.isLoading = false

/-- What an in-flight request's continuations do against a cleared (empty)
message store: any failure leaves the store empty (the status rewrite finds
no message) and the persisted history still the empty serialization, while
a success's status rewrite also finds no message but its delayed append
still adds the bot message to the cleared store. -/
def InflightAfterClearSpec (s : ChatState) (mid bid : String) (now : Nat) : Prop :=
  (∀ out : AxiosOutcome, ∀ e : ErrInfo, failureInfo out = some e →
      (fireDelayed (handleSendResponse s mid out bid now)).messages = []
      ∧ (fireDelayed (handleSendResponse s mid out bid now)).chatHistoryStore
          = some (Stored.messages []))
  ∧ (∀ x : String, x ≠ "" →
      (handleSendResponse s mid
          (AxiosOutcome.ok (some { response := some x })) bid now).state.messages = []
      ∧ (fireDelayed (handleSendResponse s mid
          (AxiosOutcome.ok (some { response := some x })) bid now)).messages
          = [mkBotMessage x bid now])

/-- The accepted-send shape: the messages list right after the synchronous
phase of `handleSend` (before any network response is observed) is the old
list with exactly one user message appended at the end, carrying the typed
input, status `sent` and the generated id; the input field is cleared and
the loading flag set. -/
def SendAppendsSpec (s : ChatState) (mid : String) (now : Nat) : Prop :=
  (handleSendStart s mid now).1.messages =
    s.messages ++
      [{ content := s.input, isUser := true, timestamp := now,
         status := some MsgStatus.sent, id := mid }]
  ∧ (handleSendStart s mid now).1.input = ""
  ∧ (handleSendStart s mid now).1.isLoading = true

/-- The request body of an accepted send: exactly one request is issued and
its body carries the typed message and the selected platform, defaulting to
`"Other"` when none is selected. -/
def RequestBodySpec (s : ChatState) (mid : String) (now : Nat) : Prop :=
  (handleSendStart s mid now).2
      = some { message := s.input, platform := s.selectedPlatform.getD "Other" }
  ∧ (s.selectedPlatform = none → s.selectedPlatform.getD "Other" = "Other")
  ∧ (∀ p, s.selectedPlatform = some p → s.selectedPlatform.getD "Other" = p)

/-- Shape of the two message-list updaters: an append at the end extends
the list by exactly one element, keeps every existing element in place and
puts the new one last; the status rewrite keeps length, order, contents,
ids, `isUser` flags and timestamps, rewrites statuses exactly at positions
whose id matches, and (when ids are pairwise distinct) at most one position
matches. -/
def ListOpsSpec (l : List Message) (m : Message) (mid : String) (st : MsgStatus) : Prop :=
  ((l ++ [m]).length = l.length + 1
    ∧ (l ++ [m]).take l.length = l
    ∧ (l ++ [m]).getLast? = some m)
  ∧ ((updateStatus l mid st).length = l.length
    ∧ (updateStatus l mid st).map Message.content = l.map Message.content
    ∧ (updateStatus l mid st).map Message.id = l.map Message.id
    ∧ (updateStatus l mid st).map Message.isUser = l.map Message.isUser
    ∧ (updateStatus l mid st).map Message.timestamp = l.map Message.timestamp
    ∧ (updateStatus l mid st).map Message.status
        = l.map (fun x => if x.id = mid then some st else x.status)
    ∧ (∀ i j (hi : i < l.length) (hj : j < l.length),
        (l.get ⟨i, hi⟩).id = mid → (l.get ⟨j, hj⟩).id = mid → i = j))

/-- Every message-list mutation of the embedded handlers is one of the two
shapes: the synchronous phase of a send either leaves the list alone or
appends one user message at the end; the response handler always rewrites
statuses in place (to `delivered` or to `error`); firing the delay either
leaves the list alone or appends one message at the end. -/
def OpsShapeSpec : Prop :=
  (∀ (s : ChatState) (mid : String) (now : Nat),
      (handleSendStart s mid now).1.messages = s.messages
      ∨ (handleSendStart s mid now).1.messages
          = s.messages ++ [{ content := s.input, isUser := true, timestamp := now,
                             status := some MsgStatus.sent, id := mid }])
  ∧ (∀ (s : ChatState) (mid : String) (out : AxiosOutcome) (bid : String) (now : Nat),
      (handleSendResponse s mid out bid now).state.messages
          = updateStatus s.messages mid MsgStatus.delivered
      ∨ (handleSendResponse s mid out bid now).state.messages
          = updateStatus s.messages mid MsgStatus.error)
  ∧ (∀ r : RespEffects, (fireDelayed r).messages = r.state.messages
      ∨ ∃ b, (fireDelayed r).messages = r.state.messages ++ [b])

/-- Verbatim preservation of the typed input by an accepted send: the
appended user message's content and the request body's `message` field are
the original untrimmed input string. -/
def VerbatimSpec (s : ChatState) (mid : String) (now : Nat) : Prop :=
  (handleSendStart s mid now).1.messages.getLast?.map Message.content = some s.input
  ∧ (handleSendStart s mid now).2.map Payload.message = some s.input

/-! Helper lemmas about the embedded operations. -/

/-- A structure update that rewrites `timestamp` to its own value is the
identity (structure eta). -/
theorem message_timestamp_eta (m : Message) :
    ({ m with timestamp := m.timestamp } : Message) = m := rfl

/-- Any projection that ignores the `status` field is preserved by
`updateStatus`. -/
theorem updateStatus_map_of_ignores {α : Type} (l : List Message) (mid : String)
    (st : MsgStatus) (g : Message → α)
    (hg : ∀ m : Message, g { m with status := some st } = g m) :
    (updateStatus l mid st).map g = l.map g := by
  induction l with
  | nil => rfl
  | cons a t ih =>
      simp only [updateStatus, List.map_cons] at ih ⊢
      by_cases h : a.id = mid
      · rw [if_pos h, hg a, ih]
      · rw [if_neg h, ih]

/-- The statuses after `updateStatus`: `some st` where the id matches, the
old status elsewhere. -/
theorem updateStatus_map_status (l : List Message) (mid : String) (st : MsgStatus) :
    (updateStatus l mid st).map Message.status
      = l.map fun x => if x.id = mid then some st else x.status := by
  induction l with
  | nil => rfl
  | cons a t ih =>
      simp only [updateStatus, List.map_cons] at ih ⊢
      by_cases h : a.id = mid <;> simp [h, ih]

/-- `updateStatus` preserves the length of the list. -/
theorem updateStatus_length (l : List Message) (mid : String) (st : MsgStatus) :
    (updateStatus l mid st).length = l.length := by
  simp [updateStatus]

/-- When the ids of a message list are pairwise distinct, two positions
holding the same id coincide. -/
theorem nodupIds_get_inj (l : List Message) (h : (l.map Message.id).Nodup)
    (i j : Nat) (hi : i < l.length) (hj : j < l.length)
    (hij : (l.get ⟨i, hi⟩).id = (l.get ⟨j, hj⟩).id) : i = j := by
  have hinj := List.nodup_iff_injective_get.mp h
  have hi' : i < (l.map Message.id).length := by simpa using hi
  have hj' : j < (l.map Message.id).length := by simpa using hj
  have hget : (l.map Message.id).get ⟨i, hi'⟩ = (l.map Message.id).get ⟨j, hj'⟩ := by
    simp only [List.get_eq_getElem, List.getElem_map]
    exact hij
  exact congrArg Fin.val (hinj hget)

/-- `jsOr` agrees with `Option.getD` away from the empty string. -/
theorem jsOr_eq_getD (p : Option String) (d : String) (hp : p ≠ some "") :
    jsOr p d = p.getD d := by
  cases p with
  | none => rfl
  | some v =>
      have hv : v ≠ "" := fun hveq => hp (by rw [hveq])
      simp [jsOr, hv]

/-- The platform `Select` handler never stores the empty string. -/
theorem selectPlatformValue_ne_empty (v : String) : selectPlatformValue v ≠ some "" := by
  by_cases h : v = "" <;> simp [selectPlatformValue, h]

/-- `validateResponse` accepts exactly the payloads carrying a non-empty
`response` field. -/
theorem validateResponse_ok (x : String) (hx : x ≠ "") :
    validateResponse (some { response := some x }) = Except.ok x := by
  simp [validateResponse, hx]

/-- Reduction of the response handler on a valid success (non-empty
response text). -/
theorem handleSendResponse_success (s : ChatState) (mid bid : String) (now : Nat)
    (x : String) (hx : x ≠ "") :
    handleSendResponse s mid (AxiosOutcome.ok (some { response := some x })) bid now =
      { state :=
          { persistMessages
              { s with messages := updateStatus s.messages mid MsgStatus.delivered } with
            isLoading := false }
        delayed := some (mkBotMessage x bid now)
        toast := none } := by
  simp only [handleSendResponse, validateResponse_ok x hx]

/-- Reduction of the response handler on any failure (thrown axios error or
invalid 2xx payload). -/
theorem handleSendResponse_failure (s : ChatState) (mid bid : String) (now : Nat)
    (out : AxiosOutcome) (e : ErrInfo) (h : failureInfo out = some e) :
    handleSendResponse s mid out bid now =
      { state :=
          { persistMessages
              { s with messages := updateStatus s.messages mid MsgStatus.error } with
            isLoading := false }
        delayed := none
        toast := some { title := "Error", description := errDescription e,
                        status := "error", duration := 5000, isClosable := true } } := by
  cases out with
  | err e2 =>
      have he : e2 = e := Option.some.inj (by simpa [failureInfo] using h)
      simp [handleSendResponse, he]
  | ok data =>
      cases hv : validateResponse data with
      | ok r => simp [failureInfo, hv] at h
      | error e2 =>
          have he : e2 = e := by simpa [failureInfo, hv] using h
          simp [handleSendResponse, hv, he]

/-! The claim theorems, their witnesses and counterexamples. -/

/-- C1, counterexample: the claim states that the appended bot message
carries no delivery status (`status` undefined); on the concrete success
response `"X"` the scheduled bot message's status is `'delivered'`, not
undefined. -/
theorem C1_counterexample :
    (handleSendResponse exampleState "m1"
        (AxiosOutcome.ok (some { response := some "X" })) "b1" 105).delayed
      = some (mkBotMessage "X" "b1" 105)
    ∧ (mkBotMessage "X" "b1" 105).status = some MsgStatus.delivered
    ∧ (mkBotMessage "X" "b1" 105).status ≠ none := by
  refine ⟨rfl, rfl, ?_⟩
  decide

/-- C1 (amended): for every successful service response carrying non-empty
text `x`, the originating user message transitions to status `delivered`
(everything else about existing messages preserved) and the scheduled bot
message, appended after the originating message when the fixed delay fires,
has content `x` and carries status `'delivered'` (not undefined as the
claim stated). -/
theorem C1_amended_success_flow (s : ChatState) (mid bid : String) (now : Nat)
    (x : String) (hx : x ≠ "") : SuccessFlowSpec s mid bid now x := by
  have hv := validateResponse_ok x hx
  have hr : handleSendResponse s mid (AxiosOutcome.ok (some { response := some x })) bid now =
      { state :=
          { persistMessages
              { s with messages := updateStatus s.messages mid MsgStatus.delivered } with
            isLoading := false }
        delayed := some (mkBotMessage x bid now)
        toast := none } := by
    simp only [handleSendResponse, hv]
  unfold SuccessFlowSpec
  rw [hr]
  exact ⟨updateStatus_map_status _ _ _,
    updateStatus_map_of_ignores _ _ _ _ (fun m => rfl),
    updateStatus_map_of_ignores _ _ _ _ (fun m => rfl),
    updateStatus_map_of_ignores _ _ _ _ (fun m => rfl),
    updateStatus_map_of_ignores _ _ _ _ (fun m => rfl),
    rfl, rfl, rfl, rfl, rfl, rfl⟩

/-- C1, witness: the amended success flow at a concrete state and the
concrete response `"X"`. -/
theorem C1_witness : SuccessFlowSpec exampleState "m1" "b1" 105 "X" :=
  C1_amended_success_flow exampleState "m1" "b1" 105 "X" (by decide)

/-- C2, counterexample: the claim states that without a server `detail`
field the notification carries a (fixed) generic error text; the code falls
back to the failure's own `message` first, so two detail-less failures
carry two different descriptions. -/
theorem C2_counterexample :
    ((handleSendResponse exampleState "m1"
        (AxiosOutcome.err { message := some "Network Error", detail := none })
        "b1" 105).toast.map ToastInfo.description) = some "Network Error"
    ∧ ((handleSendResponse exampleState "m1" (AxiosOutcome.ok none)
        "b1" 105).toast.map ToastInfo.description)
        = some "Invalid response format from server"
    ∧ ("Network Error" : String) ≠ "Invalid response format from server" := by
  refine ⟨rfl, rfl, ?_⟩
  decide

/-- C2 (amended): for every failure of a send's request, the originating
message transitions to `error`, no bot message is appended, and a toast is
raised whose description is the server-provided `detail` field when present
and non-empty, otherwise the failure's own message when present and
non-empty, otherwise the generic text `Failed to get response`. -/
theorem C2_amended_failure_flow (s : ChatState) (mid bid : String) (now : Nat)
    (out : AxiosOutcome) (e : ErrInfo) (h : failureInfo out = some e) :
    FailureFlowSpec s mid bid now out e := by
  have hr := handleSendResponse_failure s mid bid now out e h
  unfold FailureFlowSpec
  rw [hr]
  refine ⟨rfl, updateStatus_length _ _ _,
    updateStatus_map_of_ignores _ _ _ _ (fun m => rfl),
    updateStatus_map_of_ignores _ _ _ _ (fun m => rfl),
    updateStatus_map_of_ignores _ _ _ _ (fun m => rfl),
    updateStatus_map_of_ignores _ _ _ _ (fun m => rfl),
    updateStatus_map_status _ _ _, rfl, ?_, rfl⟩
  intro d hd hne
  simp [errDescription, jsOr, hd, hne]

/-- C2, witness: the amended failure flow at a concrete state for a 500
response carrying a server `detail`. -/
theorem C2_witness :
    FailureFlowSpec exampleState "m1" "b1" 105
      (AxiosOutcome.err { message := some "Request failed with status code 500",
                          detail := some "Knowledge base unavailable" })
      { message := some "Request failed with status code 500",
        detail := some "Knowledge base unavailable" } :=
  C2_amended_failure_flow exampleState "m1" "b1" 105 _ _ rfl

/-- C3, counterexample: ill-formed persisted data does not restore to the
empty list; the `JSON.parse` failure propagates out of the initializer. -/
theorem C3_counterexample :
    restore (some Stored.malformed) ≠ Except.ok []
    ∧ restore (some Stored.malformed)
        = Except.error "uncaught exception (JSON.parse SyntaxError or map TypeError)" :=
  ⟨fun h => Except.noConfusion h, rfl⟩

/-- C3 (amended): the startup restore yields the empty list when the
persisted data is absent and yields the persisted list when it is
well-formed, but on ill-formed persisted data it raises (the `JSON.parse`
or `.map` exception is not caught) instead of yielding an empty list. -/
theorem C3_amended_restore :
    restore none = Except.ok []
    ∧ (∀ l : List Message, restore (some (Stored.messages l)) = Except.ok l)
    ∧ (∃ msg, restore (some Stored.malformed) = Except.error msg) := by
  refine ⟨rfl, ?_, ⟨_, rfl⟩⟩
  intro l
  show Except.ok (l.map fun msg => { msg with timestamp := msg.timestamp }) = Except.ok l
  exact congrArg Except.ok (List.map_id' l)

/-- C4, counterexample: at a state with persisted history and platform, the
clear-chat action leaves both storage keys present (the history is
overwritten with the empty serialization, the platform untouched), while
the claim states both are removed. -/
theorem C4_counterexample :
    (handleClearChatEvent exampleState).messages = []
    ∧ (handleClearChatEvent exampleState).chatHistoryStore = some (Stored.messages [])
    ∧ (handleClearChatEvent exampleState).chatHistoryStore ≠ none
    ∧ (handleClearChatEvent exampleState).selectedPlatformStore = some "Segment"
    ∧ (handleClearChatEvent exampleState).selectedPlatformStore ≠ none := by
  refine ⟨rfl, rfl, ?_, rfl, ?_⟩ <;> decide

/-- C4 (amended): after the clear-chat action the in-memory list is empty
and the persisted `chatHistory` is overwritten with the serialization of
the empty list (the key stays present, it is not removed); the persisted
`selectedPlatform` entry is left exactly as it was. -/
theorem C4_amended_clear (s : ChatState) :
    (handleClearChatEvent s).messages = []
    ∧ (handleClearChatEvent s).chatHistoryStore = some (Stored.messages [])
    ∧ (handleClearChatEvent s).selectedPlatformStore = s.selectedPlatformStore :=
  ⟨rfl, rfl, rfl⟩

/-- C4, witness: the amended clear-chat behaviour at a concrete state. -/
theorem C4_witness :
    (handleClearChatEvent exampleState).messages = []
    ∧ (handleClearChatEvent exampleState).chatHistoryStore = some (Stored.messages [])
    ∧ (handleClearChatEvent exampleState).selectedPlatformStore
        = exampleState.selectedPlatformStore :=
  C4_amended_clear exampleState

/-- C5, counterexample: a successful response applied after the chat was
cleared does not leave the empty store unchanged; the delayed append
re-adds the bot message. -/
theorem C5_counterexample :
    clearedState.messages = []
    ∧ (fireDelayed (handleSendResponse clearedState "m1"
        (AxiosOutcome.ok (some { response := some "X" })) "b1" 105)).messages
        = [mkBotMessage "X" "b1" 105]
    ∧ [mkBotMessage "X" "b1" 105] ≠ ([] : List Message) := by
  refine ⟨rfl, rfl, ?_⟩
  decide

/-- C5 (amended): for a request in flight when the chat is cleared, the
status rewrite of either continuation is a harmless no-op against the
empty store and a failure leaves the store empty, but a successful
response's delayed append still adds its bot message to the cleared
store. -/
theorem C5_amended_inflight (s : ChatState) (mid bid : String) (now : Nat)
    (hm : s.messages = []) : InflightAfterClearSpec s mid bid now := by
  constructor
  · intro out e h
    rw [handleSendResponse_failure s mid bid now out e h]
    rw [show (fireDelayed
        { state :=
            { persistMessages
                { s with messages := updateStatus s.messages mid MsgStatus.error } with
              isLoading := false }
          delayed := none
          toast := some { title := "Error", description := errDescription e,
                          status := "error", duration := 5000, isClosable := true } })
        = { persistMessages
              { s with messages := updateStatus s.messages mid MsgStatus.error } with
            isLoading := false } from rfl]
    rw [hm]
    exact ⟨rfl, rfl⟩
  · intro x hx
    rw [handleSendResponse_success s mid bid now x hx]
    rw [hm]
    exact ⟨rfl, rfl⟩

/-- C5, witness: the amended in-flight behaviour at the concrete cleared
state. -/
theorem C5_witness : InflightAfterClearSpec clearedState "m1" "b1" 105 :=
  C5_amended_inflight clearedState "m1" "b1" 105 rfl

/-- C6, counterexample: the input `" "` is a non-empty input text, yet
`handleSend` rejects it and appends nothing, so the claim fails as stated
for it. -/
theorem C6_counterexample :
    wsState.input ≠ ""
    ∧ handleSendStart wsState "m1" 3 = (wsState, none)
    ∧ (handleSendStart wsState "m1" 3).1.messages = wsState.messages := by
  refine ⟨?_, ?_, ?_⟩ <;> decide

/-- C6 (amended): for every input whose trimmed form is non-empty, `send`
appends exactly one user message with status `sent` to the end of the
message list before any network response is observed. -/
theorem C6_amended_send_appends (s : ChatState) (mid : String) (now : Nat)
    (h : jsTrim s.input ≠ "") : SendAppendsSpec s mid now := by
  unfold SendAppendsSpec
  simp [handleSendStart, h, persistMessages]

/-- C6, witness: the amended append behaviour at a concrete typed state. -/
theorem C6_witness : SendAppendsSpec typedState "m1" 100 :=
  C6_amended_send_appends typedState "m1" 100 (by decide)

/-- C7: empty or whitespace-only input (a trimmed result that is the empty
string) makes `handleSend` return before any state change: the entire state
(message list, input, loading flag, platform and both persisted entries) is
exactly as before the call and no request is issued. -/
theorem C7_empty_input_noop (s : ChatState) (mid : String) (now : Nat)
    (h : jsTrim s.input = "") : handleSendStart s mid now = (s, none) := by
  simp [handleSendStart, h]

/-- C7, witness: the no-op at the concrete whitespace-only state. -/
theorem C7_witness : handleSendStart wsState "m7" 7 = (wsState, none) :=
  C7_empty_input_noop wsState "m7" 7 (by decide)

/-- C8: every accepted send issues exactly one request whose body is the
typed text together with the selected platform, or the string `"Other"`
when no platform is selected. The hypothesis that the selected platform is
never the empty string holds for every value the platform selector stores
(`selectPlatformValue_ne_empty`). -/
theorem C8_request_body (s : ChatState) (mid : String) (now : Nat)
    (h : jsTrim s.input ≠ "") (hp : s.selectedPlatform ≠ some "") :
    RequestBodySpec s mid now := by
  unfold RequestBodySpec
  refine ⟨?_, ?_, ?_⟩
  · simp [handleSendStart, h, jsOr_eq_getD s.selectedPlatform "Other" hp]
  · intro hnone
    simp [hnone]
  · intro p hp2
    simp [hp2]

/-- C8, witness: the request body at the concrete typed state with platform
`Segment`. -/
theorem C8_witness : RequestBodySpec typedState "m1" 100 :=
  C8_request_body typedState "m1" 100 (by decide) (by decide)

/-- C9: every operation on the message list is an append at the end or an
in-place status rewrite; appends keep every existing message in place, and
the status rewrite preserves order, ids, contents, `isUser` flags and
timestamps, touching only the status field of the (under distinct ids,
at most one) message whose id matches. -/
theorem C9_list_ops_invariant (l : List Message) (m : Message) (mid : String)
    (st : MsgStatus) (hids : (l.map Message.id).Nodup) :
    ListOpsSpec l m mid st ∧ OpsShapeSpec := by
  constructor
  · refine ⟨⟨by simp, ?_, by simp⟩,
      updateStatus_length _ _ _,
      updateStatus_map_of_ignores _ _ _ _ (fun x => rfl),
      updateStatus_map_of_ignores _ _ _ _ (fun x => rfl),
      updateStatus_map_of_ignores _ _ _ _ (fun x => rfl),
      updateStatus_map_of_ignores _ _ _ _ (fun x => rfl),
      updateStatus_map_status _ _ _, ?_⟩
    · simp [List.take_left]
    · intro i j hi hj hic hjc
      exact nodupIds_get_inj l hids i j hi hj (hic.trans hjc.symm)
  · refine ⟨?_, ?_, ?_⟩
    · intro s mid2 now
      by_cases h : jsTrim s.input = ""
      · left
        simp [handleSendStart, h]
      · right
        simp [handleSendStart, h, persistMessages]
    · intro s mid2 out bid now
      cases out with
      | ok data =>
          cases hv : validateResponse data with
          | ok r =>
              left
              simp [handleSendResponse, hv, persistMessages]
          | error e =>
              right
              simp [handleSendResponse, hv, persistMessages]
      | err e =>
          right
          simp [handleSendResponse, persistMessages]
    · intro r
      cases hd : r.delayed with
      | none =>
          left
          simp [fireDelayed, hd]
      | some b =>
          right
          exact ⟨b, by simp [fireDelayed, hd, persistMessages]⟩

/-- C9, witness: the list-operation shapes at a concrete two-message list
with distinct ids. -/
theorem C9_witness :
    ListOpsSpec [exampleUserMsg, mkBotMessage "Use the Segment setup wizard" "b1" 105]
      (mkBotMessage "more" "b2" 205) "m1" MsgStatus.delivered ∧ OpsShapeSpec :=
  C9_list_ops_invariant _ _ _ _ (by decide)

/-- C10: for every accepted input (in particular one carrying leading or
trailing whitespace around non-whitespace text), the appended user
message's content and the request body's `message` field both equal the
original untrimmed input; trimming is used only for the emptiness check. -/
theorem C10_verbatim_input (s : ChatState) (mid : String) (now : Nat)
    (h : jsTrim s.input ≠ "") : VerbatimSpec s mid now := by
  unfold VerbatimSpec
  simp [handleSendStart, h, persistMessages]

/-- C10, witness: verbatim preservation at the concrete state whose input
carries leading and trailing whitespace. -/
theorem C10_witness : VerbatimSpec paddedState "m9" 42 :=
  C10_verbatim_input paddedState "m9" 42 (by decide)

end CdpBot
